import Mathlib

set_option maxRecDepth 10000
set_option linter.unusedVariables false

/-!
Verification of the Pong0 challenge solver and extraction engine.

Go strings are byte sequences; we model them as `List Nat` of UTF-8 byte
values obtained from the Lean `String` input, so that `len`, slicing and
equality in the Go source all act on bytes exactly as in Go.
-/

/-- UTF-8 encoding of a single character (1 to 4 bytes). -/
def utf8EncodeChar (c : Char) : List Nat :=
  let n := c.toNat
  if n < 128 then [n]
  else if n < 2048 then [192 + n / 64, 128 + n % 64]
  else if n < 65536 then [224 + n / 4096, 128 + (n / 64) % 64, 128 + n % 64]
  else [240 + n / 262144, 128 + (n / 4096) % 64, 128 + (n / 64) % 64, 128 + n % 64]

/-- The UTF-8 bytes of a string, as Go sees it with `[]byte(s)`, `len(s)`
and byte slicing. -/
def strBytes (s : String) : List Nat :=
  s.data.flatMap utf8EncodeChar

/-! ## SHA-256 (FIPS 180-4), as used by Go crypto/sha256

Words are `Nat` values kept below `2^32` by explicit masking. -/

/-- Addition of 32-bit words modulo `2^32`. -/
def wadd (a b : Nat) : Nat := (a + b) % 4294967296

/-- Right rotation of a 32-bit word. -/
def rotr (n w : Nat) : Nat := ((w >>> n) ||| (w <<< (32 - n))) % 4294967296

/-- The sixty-four SHA-256 round constants (decimal). -/
def sha256K : Array Nat := #[
  1116352408, 1899447441, 3049323471, 3921009573,
  961987163, 1508970993, 2453635748, 2870763221,
  3624381080, 310598401, 607225278, 1426881987,
  1925078388, 2162078206, 2614888103, 3248222580,
  3835390401, 4022224774, 264347078, 604807628,
  770255983, 1249150122, 1555081692, 1996064986,
  2554220882, 2821834349, 2952996808, 3210313671,
  3336571891, 3584528711, 113926993, 338241895,
  666307205, 773529912, 1294757372, 1396182291,
  1695183700, 1986661051, 2177026350, 2456956037,
  2730485921, 2820302411, 3259730800, 3345764771,
  3516065817, 3600352804, 4094571909, 275423344,
  430227734, 506948616, 659060556, 883997877,
  958139571, 1322822218, 1537002063, 1747873779,
  1955562222, 2024104815, 2227730452, 2361852424,
  2428436474, 2756734187, 3204031479, 3329325298]

/-- The SHA-256 hash state: eight 32-bit words. -/
structure Sha256H where
  h0 : Nat
  h1 : Nat
  h2 : Nat
  h3 : Nat
  h4 : Nat
  h5 : Nat
  h6 : Nat
  h7 : Nat
deriving DecidableEq

/-- The SHA-256 initial hash value (decimal). -/
def sha256Init : Sha256H :=
  ⟨1779033703, 3144134277, 1013904242, 2773480762,
   1359893119, 2600822924, 528734635, 1541459225⟩

/-- Group a list of bytes into 32-bit big-endian words. -/
def bytesToWords : List Nat → List Nat
  | b0 :: b1 :: b2 :: b3 :: rest =>
      (((b0 * 256 + b1) * 256 + b2) * 256 + b3) :: bytesToWords rest
  | _ => []

/-- Extend the sixteen message words to the full sixty-four word schedule;
the fuel counts the words still to append (48 for a fresh block). -/
def sha256Extend : Array Nat → Nat → Array Nat
  | w, 0 => w
  | w, fuel + 1 =>
    let i := w.size
    let w15 := w.getD (i - 15) 0
    let w2 := w.getD (i - 2) 0
    let s0 := (rotr 7 w15) ^^^ (rotr 18 w15) ^^^ (w15 >>> 3)
    let s1 := (rotr 17 w2) ^^^ (rotr 19 w2) ^^^ (w2 >>> 10)
    let next := wadd (wadd (w.getD (i - 16) 0) s0) (wadd (w.getD (i - 7) 0) s1)
    sha256Extend (w.push next) fuel

/-- One round of the SHA-256 compression function. -/
def sha256Round (w : Array Nat) (st : Sha256H) (i : Nat) : Sha256H :=
  let a := st.h0
  let b := st.h1
  let c := st.h2
  let d := st.h3
  let e := st.h4
  let f := st.h5
  let g := st.h6
  let h := st.h7
  let s1 := (rotr 6 e) ^^^ (rotr 11 e) ^^^ (rotr 25 e)
  let ch := (e &&& f) ^^^ ((e ^^^ 4294967295) &&& g)
  let temp1 := wadd (wadd h s1) (wadd ch (wadd (sha256K.getD i 0) (w.getD i 0)))
  let s0 := (rotr 2 a) ^^^ (rotr 13 a) ^^^ (rotr 22 a)
  let maj := (a &&& b) ^^^ (a &&& c) ^^^ (b &&& c)
  let temp2 := wadd s0 maj
  ⟨wadd temp1 temp2, a, b, c, wadd d temp1, e, f, g⟩

/-- Process one 64-byte block. -/
def sha256Block (st : Sha256H) (block : List Nat) : Sha256H :=
  let w := sha256Extend (Array.mk (bytesToWords block)) 48
  let r := (List.range 64).foldl (sha256Round w) st
  ⟨wadd st.h0 r.h0, wadd st.h1 r.h1, wadd st.h2 r.h2, wadd st.h3 r.h3,
   wadd st.h4 r.h4, wadd st.h5 r.h5, wadd st.h6 r.h6, wadd st.h7 r.h7⟩

/-- Big-endian bytes of a 64-bit length field. -/
def be64 (n : Nat) : List Nat :=
  [(n >>> 56) % 256, (n >>> 48) % 256, (n >>> 40) % 256, (n >>> 32) % 256,
   (n >>> 24) % 256, (n >>> 16) % 256, (n >>> 8) % 256, n % 256]

/-- Big-endian bytes of a 32-bit word. -/
def be32 (n : Nat) : List Nat :=
  [(n >>> 24) % 256, (n >>> 16) % 256, (n >>> 8) % 256, n % 256]

/-- SHA-256 padding: a 0x80 byte, zeros up to 56 mod 64, and the 64-bit
big-endian message bit length. -/
def sha256Pad (msg : List Nat) : List Nat :=
  let l := msg.length
  let k := (119 - l % 64) % 64
  msg ++ (128 :: List.replicate k 0) ++ be64 (l * 8)

/-- Split a byte list into 64-byte blocks (the fuel is the list length). -/
def chunks64 : Nat → List Nat → List (List Nat)
  | 0, _ => []
  | _, [] => []
  | fuel + 1, l => l.take 64 :: chunks64 fuel (l.drop 64)

/-- The SHA-256 digest of a byte sequence, as 32 bytes. -/
def sha256 (msg : List Nat) : List Nat :=
  let padded := sha256Pad msg
  let st := (chunks64 padded.length padded).foldl sha256Block sha256Init
  be32 st.h0 ++ be32 st.h1 ++ be32 st.h2 ++ be32 st.h3 ++
  be32 st.h4 ++ be32 st.h5 ++ be32 st.h6 ++ be32 st.h7

/-- The ASCII code of the lowercase hexadecimal digit for `n < 16`,
as produced by Go encoding/hex. -/
def hexDigitByte (n : Nat) : Nat :=
  if n < 10 then 48 + n else 87 + n

/-- Lowercase hexadecimal encoding of a byte list, one byte to two ASCII
bytes, as Go hex.EncodeToString. -/
def hexEncode (bs : List Nat) : List Nat :=
  bs.flatMap fun b => [hexDigitByte (b / 16), hexDigitByte (b % 16)]

/-- The lowercase-hex SHA-256 digest of a byte sequence (64 ASCII bytes). -/
def sha256Hex (msg : List Nat) : List Nat :=
  hexEncode (sha256 msg)

/-! ## The proof-of-work search (src/internal/parser/js_engine.go) -/

/-- Translation of `calculateHashStart`: hash the input with SHA-256,
hex-encode, clamp the requested length to the digest length, and return
that many leading hex characters (bytes). -/
def calculateHashStart (input : List Nat) (length : Nat) : List Nat :=
  let hashHex := sha256Hex input
  let length := if length > hashHex.length then hashHex.length else length
  hashHex.take length

/-- The candidate test made by one iteration of `calculatePow` at a given
counter: the digest prefix of `x1 + decimal(counter)` equals the
difficulty string (byte-for-byte, as Go string equality). -/
def powMatch (x1b db : List Nat) (counter : Nat) : Bool :=
  calculateHashStart (x1b ++ strBytes (Nat.repr counter)) db.length = db

/-- The error message returned when the iteration limit is exceeded. -/
def powFailMsg : String := "超过最大迭代次数，无法找到符合条件的POW值"

/-- The loop of `calculatePow` from a given counter, with the remaining
iteration allowance as fuel: the Go loop errors out as soon as the counter
exceeds 100000, so it is entered with fuel `100000 - counter`. -/
def powLoop (x1b db : List Nat) : Nat → Nat → Except String Nat
  | counter, 0 =>
      if powMatch x1b db counter then .ok counter
      else .error powFailMsg
  | counter, fuel + 1 =>
      if powMatch x1b db counter then .ok counter
      else powLoop x1b db (counter + 1) fuel

/-- Translation of `calculatePow`: search counters 0, 1, 2, … for the first
whose digest matches the difficulty; the loop increments the counter after
each failure and errors once the counter passes 100000, so counters 0
through 100000 inclusive are tried. -/
def calculatePow (x1 difficulty : String) : Except String Nat :=
  powLoop (strBytes x1) (strBytes difficulty) 0 100000

instance {ε α : Type} [DecidableEq ε] [DecidableEq α] : DecidableEq (Except ε α) := fun
  | .ok a, .ok b =>
      if h : a = b then .isTrue (by rw [h]) else .isFalse (fun hc => h (Except.ok.inj hc))
  | .ok _, .error _ => .isFalse (fun hc => nomatch hc)
  | .error _, .ok _ => .isFalse (fun hc => nomatch hc)
  | .error a, .error b =>
      if h : a = b then .isTrue (by rw [h]) else .isFalse (fun hc => h (Except.error.inj hc))

/-! ### Every digest byte is a lowercase hexadecimal character -/

/-- Membership of a byte value in the lowercase hexadecimal alphabet
(`0`-`9`, `a`-`f` in ASCII). -/
def hexByte (b : Nat) : Bool :=
  (48 ≤ b && b ≤ 57) || (97 ≤ b && b ≤ 102)

/-- Membership of a character in the lowercase hexadecimal alphabet. -/
def hexChar (c : Char) : Bool := hexByte c.toNat

/-- Modelled from the claim's wording: ASCII lowercasing of the difficulty,
the `lowercase(prefix)` operation that C4 compares against. -/
def specLowerChar (c : Char) : Char :=
  if 65 ≤ c.toNat ∧ c.toNat ≤ 90 then Char.ofNat (c.toNat + 32) else c

/-- Modelled from the claim's wording: `lowercase` applied to a string. -/
def specLower (s : String) : String :=
  String.mk (s.data.map specLowerChar)

/-! ## The key derivation (calculateJs1Key, js_engine.go)

The Go accumulator is an `int` that is non-negative after every statement
(the first assignment and every addition/subtraction are immediately
masked with `& 0xFFFFFF`, and xor of non-negative values is non-negative),
so we model it as a `Nat`; the two places where a transiently negative
value can reach the mask (a subtraction, and a chunk addition whose parsed
value can be negative) go through `Int.emod`, which agrees with Go's
`& 0xFFFFFF` on two's-complement `int` values. -/

/-- Two's-complement bitwise xor on mathematical integers, as Go's `^` on
`int` (no overflow occurs in this program's uses). -/
def ixor : Int → Int → Int
  | .ofNat m, .ofNat n => .ofNat (m ^^^ n)
  | .ofNat m, .negSucc n => .negSucc (m ^^^ n)
  | .negSucc m, .ofNat n => .negSucc (m ^^^ n)
  | .negSucc m, .negSucc n => .ofNat (m ^^^ n)

/-- Translation of `obf` (the `_0x34ab46` obfuscation helper). -/
def obf (n0 : Int) : Int :=
  let n := n0 + 4566
  let n := ixor n 2258
  let n := ixor n 7675
  let n := ixor n 7668
  let n := n + 4032
  let n := n - 7637
  let n := n - 6257
  let n := n - 7159
  let n := ixor n 8417
  let n := n + 4296
  let n := ixor n 42851
  n

/-- `(js1key + k) & 0xFFFFFF` for a non-negative accumulator. -/
def madd (k a : Nat) : Nat := (a + k) % 16777216

/-- `(js1key - k) & 0xFFFFFF`: on Go two's-complement ints the mask of a
(possibly negative) difference is the mathematical remainder mod `2^24`. -/
def msub (k a : Nat) : Nat := (((a : Int) - (k : Int)).emod 16777216).toNat

/-- `(js1key ^ k) & 0xFFFFFF` for non-negative operands. -/
def mxor (k a : Nat) : Nat := (a ^^^ k) % 16777216

/-- `js1key ^ k` without a following mask, for non-negative operands. -/
def gxor (k a : Nat) : Nat := a ^^^ k

/-- The value of one hexadecimal digit byte, either case. -/
def hexDigitVal (b : Nat) : Option Nat :=
  if 48 ≤ b ∧ b ≤ 57 then some (b - 48)
  else if 97 ≤ b ∧ b ≤ 102 then some (b - 87)
  else if 65 ≤ b ∧ b ≤ 70 then some (b - 55)
  else none

/-- The value of a non-empty all-hex digit string, `none` on a syntax
error (empty or any non-digit byte). -/
def hexMagnitude (bs : List Nat) : Option Nat :=
  if bs.isEmpty then none
  else bs.foldl (fun acc b => acc.bind fun a => (hexDigitVal b).map fun d => a * 16 + d)
    (some 0)

/-- Model of `strconv.ParseInt(s, 16, 64)` with the error discarded as in
the source: an optional sign followed by hex digits; on a syntax error Go
returns 0 (and an error that the caller ignores). The inputs here are
4-byte slices, so the 64-bit range clamp is unreachable. -/
def parseIntHex (bs : List Nat) : Int :=
  match bs with
  | 43 :: rest =>
      match hexMagnitude rest with
      | some v => (v : Int)
      | none => 0
  | 45 :: rest =>
      match hexMagnitude rest with
      | some v => -(v : Int)
      | none => 0
  | _ =>
      match hexMagnitude bs with
      | some v => (v : Int)
      | none => 0

/-- `js1key += int(hexVal) + 12; js1key &= 0xFFFFFF` for a chunk value that
may be negative (signed hex parse). -/
def chunkAdd (v : Int) (a : Nat) : Nat := (((a : Int) + v + 12).emod 16777216).toNat

/-- The statements of `calculateJs1Key` before the first `len(x1) >= 8`
guard (source lines 103-172). -/
def js1Base (x1b : List Nat) (hrefLen : Int) (animated : Bool) (js0 : Nat) : Nat :=
  let js := js0
  let js := if obf 46441 + obf 35365 < obf 28159 then msub 1608 js else js
  let js := if animated then gxor 53400 js else js
  let js := mxor 3084 js
  let js := msub 6341 js
  let js := if animated then madd 90994 js else js
  let js := madd 3769 js
  let js := msub 8999 js
  let js := madd 6920 js
  let js := if animated then madd 78439 js else js
  let js := madd 1264 js
  let js := if animated then gxor 39852 js else js
  let js := gxor 7249 js
  let js := msub 3808 js
  let js := madd 2625 js
  let js := madd 9192 js
  let js := if (x1b.length : Int) + obf 56907 < obf 57347 then msub 3116 js else js
  let js := gxor 8580 js
  let js := msub 5467 js
  let js := if animated then gxor 24814 js else js
  let js := gxor 7636 js
  let js := js % 16777216
  let js := if (x1b.length : Int) + obf 56910 < obf 57268 then madd 6090 js else js
  let js := if (x1b.length : Int) + obf 63126 > obf 57338 then msub 4085 js else js
  let js := if animated then msub 85694 js else js
  let js := msub 3211 js
  let js := madd 6561 js
  let js := if animated then msub 64921 js else js
  let js := msub 3687 js
  madd 6366 js

/-- The `len(x1) >= 8` block of `calculateJs1Key` (source lines 175-238). -/
def js1Chunk2 (x1b : List Nat) (hrefLen : Int) (animated : Bool) (js0 : Nat) : Nat :=
  let js := chunkAdd (parseIntHex ((x1b.drop 4).take 4)) js0
  let js := if animated then msub 23486 js else js
  let js := msub 1608 js
  let js := mxor 3084 js
  let js := msub 6341 js
  let js := if obf 35569 + obf 47549 < obf 25553 then madd 3769 js else js
  let js := msub 8999 js
  let js := if obf 56917 + hrefLen > obf 56913 then madd 6920 js else js
  let js := if animated then madd 70398 js else js
  let js := madd 1264 js
  let js := mxor 7249 js
  let js := if obf 56912 + hrefLen > obf 56914 then msub 3808 js else js
  let js := madd 2625 js
  let js := madd 9192 js
  let js := msub 3116 js
  let js := mxor 8580 js
  let js := if animated then msub 58679 js else js
  let js := msub 5467 js
  let js := if (x1b.length : Int) + obf 58748 > obf 57264 then mxor 7636 js else js
  let js := madd 6090 js
  let js := if obf 56972 + hrefLen > obf 56911 then msub 4085 js else js
  let js := msub 3211 js
  let js := madd 6561 js
  let js := if obf 56911 + hrefLen > obf 56912 then msub 3687 js else js
  madd 6366 js

/-- The `len(x1) >= 12` block of `calculateJs1Key` (source lines 241-307). -/
def js1Chunk3 (x1b : List Nat) (hrefLen : Int) (animated : Bool) (js0 : Nat) : Nat :=
  let js := chunkAdd (parseIntHex ((x1b.drop 8).take 4)) js0
  let js := if animated then msub 33986 js else js
  let js := msub 1608 js
  let js := if animated then mxor 16876 js else js
  let js := mxor 3084 js
  let js := msub 6341 js
  let js := madd 3769 js
  let js := if (x1b.length : Int) + obf 56911 < obf 56926 then msub 8999 js else js
  let js := if obf 35250 + obf 58115 < obf 24814 then madd 6920 js else js
  let js := madd 1264 js
  let js := mxor 7249 js
  let js := if animated then msub 19308 js else js
  let js := msub 3808 js
  let js := madd 2625 js
  let js := madd 9192 js
  let js := msub 3116 js
  let js := if obf 56972 + hrefLen > obf 56912 then mxor 8580 js else js
  let js := if animated then msub 29698 js else js
  let js := msub 5467 js
  let js := mxor 7636 js
  let js := if obf 58053 + obf 32799 < obf 72110 then madd 6090 js else js
  let js := msub 4085 js
  let js := if obf 56913 + hrefLen > obf 56911 then msub 3211 js else js
  let js := if obf 45344 + obf 44944 < obf 24687 then madd 6561 js else js
  let js := msub 3687 js
  madd 6366 js

/-- The `len(x1) >= 16` block of `calculateJs1Key` (source lines 310-365). -/
def js1Chunk4 (x1b : List Nat) (hrefLen : Int) (animated : Bool) (js0 : Nat) : Nat :=
  let js := chunkAdd (parseIntHex ((x1b.drop 12).take 4)) js0
  let js := msub 1608 js
  let js := if obf 47787 + obf 58712 < obf 69976 then mxor 3084 js else js
  let js := if animated then msub 69093 js else js
  let js := msub 6341 js
  let js := madd 3769 js
  let js := msub 8999 js
  let js := if obf 56972 + hrefLen > obf 56972 then madd 6920 js else js
  let js := if animated then madd 65053 js else js
  let js := madd 1264 js
  let js := mxor 7249 js
  let js := msub 3808 js
  let js := if animated then madd 91021 js else js
  let js := madd 2625 js
  let js := if animated then madd 51460 js else js
  let js := madd 9192 js
  let js := msub 3116 js
  let js := mxor 8580 js
  let js := msub 5467 js
  let js := mxor 7636 js
  let js := madd 6090 js
  let js := if (x1b.length : Int) + obf 57982 > obf 57364 then msub 4085 js else js
  let js := msub 3211 js
  let js := madd 6561 js
  let js := msub 3687 js
  madd 6366 js

/-- The `len(x1) >= 20` block of `calculateJs1Key` (source lines 368-443). -/
def js1Chunk5 (x1b : List Nat) (hrefLen : Int) (animated : Bool) (js0 : Nat) : Nat :=
  let js := chunkAdd (parseIntHex ((x1b.drop 16).take 4)) js0
  let js := if obf 58011 + obf 60648 < obf 24265 then msub 1608 js else js
  let js := mxor 3084 js
  let js := msub 6341 js
  let js := if obf 48375 + obf 51432 < obf 15265 then madd 3769 js else js
  let js := if animated then msub 99151 js else js
  let js := msub 8999 js
  let js := if (x1b.length : Int) + obf 56907 < obf 57336 then madd 6920 js else js
  let js := madd 1264 js
  let js := mxor 7249 js
  let js := if animated then msub 21490 js else js
  let js := msub 3808 js
  let js := madd 2625 js
  let js := madd 9192 js
  let js := if (x1b.length : Int) + obf 56972 < obf 57344 then msub 3116 js else js
  let js := if (x1b.length : Int) + obf 56972 < obf 57264 then mxor 8580 js else js
  let js := if obf 44918 + obf 45865 < obf 25134 then msub 5467 js else js
  let js := if (x1b.length : Int) + obf 48463 > obf 56892 then mxor 7636 js else js
  let js := madd 6090 js
  let js := if animated then msub 43662 js else js
  let js := msub 4085 js
  let js := if animated then msub 40853 js else js
  let js := msub 3211 js
  let js := madd 6561 js
  let js := if obf 58656 + obf 36353 < obf 15184 then msub 3687 js else js
  if obf 58323 + obf 63494 < obf 70537 then madd 6366 js else js

/-- The `len(x1) >= 24` block of `calculateJs1Key` (source lines 446-518). -/
def js1Chunk6 (x1b : List Nat) (hrefLen : Int) (animated : Bool) (js0 : Nat) : Nat :=
  let js := chunkAdd (parseIntHex ((x1b.drop 20).take 4)) js0
  let js := if animated then msub 69932 js else js
  let js := msub 1608 js
  let js := if animated then mxor 51824 js else js
  let js := mxor 3084 js
  let js := msub 6341 js
  let js := if animated then madd 44364 js else js
  let js := madd 3769 js
  let js := if (x1b.length : Int) + obf 35762 > obf 56936 then msub 8999 js else js
  let js := if animated then madd 45930 js else js
  let js := madd 6920 js
  let js := madd 1264 js
  let js := if (x1b.length : Int) + obf 45131 > obf 57326 then mxor 7249 js else js
  let js := if animated then msub 21919 js else js
  let js := msub 3808 js
  let js := madd 2625 js
  let js := if (x1b.length : Int) + obf 45629 > obf 57358 then madd 9192 js else js
  let js := msub 3116 js
  let js := mxor 8580 js
  let js := msub 5467 js
  let js := if obf 56914 + hrefLen > obf 56913 then mxor 7636 js else js
  let js := madd 6090 js
  let js := msub 4085 js
  let js := msub 3211 js
  let js := madd 6561 js
  let js := if (x1b.length : Int) + obf 36030 > obf 56902 then msub 3687 js else js
  let js := if animated then madd 69043 js else js
  madd 6366 js

/-- The `len(x1) >= 28` block of `calculateJs1Key` (source lines 521-588). -/
def js1Chunk7 (x1b : List Nat) (hrefLen : Int) (animated : Bool) (js0 : Nat) : Nat :=
  let js := chunkAdd (parseIntHex ((x1b.drop 24).take 4)) js0
  let js := if (x1b.length : Int) + obf 57832 > obf 57332 then msub 1608 js else js
  let js := if obf 48352 + obf 45592 < obf 17965 then mxor 3084 js else js
  let js := msub 6341 js
  let js := if obf 56913 + hrefLen > obf 56972 then madd 3769 js else js
  let js := msub 8999 js
  let js := if (x1b.length : Int) + obf 56914 < obf 56935 then madd 6920 js else js
  let js := if obf 34892 + obf 48570 < obf 28130 then madd 1264 js else js
  let js := if animated then mxor 87291 js else js
  let js := mxor 7249 js
  let js := if obf 60069 + obf 59777 < obf 27136 then msub 3808 js else js
  let js := madd 2625 js
  let js := if animated then madd 86379 js else js
  let js := madd 9192 js
  let js := msub 3116 js
  let js := mxor 8580 js
  let js := if (x1b.length : Int) + obf 46288 > obf 57344 then msub 5467 js else js
  let js := mxor 7636 js
  let js := madd 6090 js
  let js := msub 4085 js
  let js := if obf 35609 + obf 32327 < obf 25583 then msub 3211 js else js
  let js := madd 6561 js
  let js := msub 3687 js
  if obf 56910 + hrefLen > obf 56972 then madd 6366 js else js

/-- The `len(x1) >= 32` block of `calculateJs1Key` (source lines 591-647). -/
def js1Chunk8 (x1b : List Nat) (hrefLen : Int) (animated : Bool) (js0 : Nat) : Nat :=
  let js := chunkAdd (parseIntHex ((x1b.drop 28).take 4)) js0
  let js := msub 1608 js
  let js := mxor 3084 js
  let js := if animated then msub 89270 js else js
  let js := msub 6341 js
  let js := madd 3769 js
  let js := if obf 56913 + hrefLen > obf 56913 then msub 8999 js else js
  let js := madd 6920 js
  let js := madd 1264 js
  let js := mxor 7249 js
  let js := if animated then msub 51206 js else js
  let js := msub 3808 js
  let js := madd 2625 js
  let js := if animated then madd 39367 js else js
  let js := madd 9192 js
  let js := if obf 46156 + obf 45907 < obf 13117 then msub 3116 js else js
  let js := if obf 56913 + hrefLen > obf 56911 then mxor 8580 js else js
  let js := msub 5467 js
  let js := if animated then mxor 25650 js else js
  let js := mxor 7636 js
  let js := madd 6090 js
  let js := msub 4085 js
  let js := msub 3211 js
  let js := madd 6561 js
  let js := msub 3687 js
  madd 6366 js

/-- Translation of `calculateJs1Key`: the initial value from the first
4-hex-digit chunk, the base statement sequence, then seven further chunk
blocks each guarded by the byte length of `x1`. -/
def calculateJs1Key (x1 locationHref : String) (animated : Bool) : Nat :=
  let x1b := strBytes x1
  let hrefLen : Int := ((strBytes locationHref).length : Int)
  let js := (((parseIntHex (x1b.take 4)) + 12).emod 16777216).toNat
  let js := js1Base x1b hrefLen animated js
  let js := if 8 ≤ x1b.length then js1Chunk2 x1b hrefLen animated js else js
  let js := if 12 ≤ x1b.length then js1Chunk3 x1b hrefLen animated js else js
  let js := if 16 ≤ x1b.length then js1Chunk4 x1b hrefLen animated js else js
  let js := if 20 ≤ x1b.length then js1Chunk5 x1b hrefLen animated js else js
  let js := if 24 ≤ x1b.length then js1Chunk6 x1b hrefLen animated js else js
  let js := if 28 ≤ x1b.length then js1Chunk7 x1b hrefLen animated js else js
  if 32 ≤ x1b.length then js1Chunk8 x1b hrefLen animated js else js

/-! ## GenerateKey (js_engine.go) and the manual branch of GetInitialPage -/

/-- The two credential values produced by `GenerateKey`. -/
structure Keys where
  js1key : String
  pow : String
deriving DecidableEq

/-- The failure cases of `GenerateKey`: the length validation, or a wrapped
`calculatePow` failure (Go wraps it as `计算POW失败: %w`). -/
inductive GenError where
  | invalidLength (actual : Nat)
  | powFailed (msg : String)
deriving DecidableEq

/-- `constants.BaseURL`. -/
def baseURL : String := "https://ping0.cc"

/-- Translation of `GenerateKey`: validate that `x1Value` is exactly 32
bytes long, derive `js1key` with `animated = false` and
`locationHref = constants.BaseURL`, search the proof-of-work counter, and
return both as decimal strings. `jsPath` is only printed in verbose mode
and does not enter the computation. -/
def GenerateKey (jsPath x1Value difficultyValue : String) : Except GenError Keys :=
  if (strBytes x1Value).length ≠ 32 then
    .error (.invalidLength (strBytes x1Value).length)
  else
    let animated := false
    let locationHref := baseURL
    let js1key := calculateJs1Key x1Value locationHref animated
    match calculatePow x1Value difficultyValue with
    | .error e => .error (.powFailed e)
    | .ok pow => .ok ⟨Nat.repr js1key, Nat.repr pow⟩

/-- The default JavaScript path used by the manual branch. -/
def defaultJsPath : String := "/js/main.js"

/-- Model of the manual-override branch of `GetInitialPage` (client.go
lines 115-135): the manually supplied nonce is returned unchanged together
with the manually supplied difficulty or, when none is given, the nonce's
first 3 characters (Go slices the first 3 bytes; the nonces this branch is
for are ASCII hex, where bytes and characters coincide) and the fixed
default JS path. A manual nonce shorter than 3 bytes makes the Go slice
`ManualX1Value[:3]` panic, modelled as an error result. -/
def getInitialPageManual (manualX1 manualDiff : String) : Except String (String × String × String) :=
  if manualDiff ≠ "" then .ok (manualX1, manualDiff, defaultJsPath)
  else if 3 ≤ manualX1.data.length then
    .ok (manualX1, String.mk (manualX1.data.take 3), defaultJsPath)
  else .error "panic: slice bounds out of range"

/-! ### Auxiliary values for the claims about the challenge solver -/

/-- Membership of a byte in the hexadecimal-digit alphabet, either case
(the claims' notion of a hexadecimal character, at the byte level). -/
def isHexDigitByte (b : Nat) : Bool :=
  (48 ≤ b && b ≤ 57) || (97 ≤ b && b ≤ 102) || (65 ≤ b && b ≤ 70)

/-- The nonce used to refute C2: 32 bytes long but not hexadecimal. -/
def zs32 : String := "zzzzzzzzzzzzzzzzzzzzzzzzzzzzzzzz"

/-! ## The extraction engine (ParseIPInfo, core.go parser part)

The goquery document is abstracted as a `Doc` carrying, for each fixed
selector/regex query the Go code makes, the result of that query (texts in
document order); the HTML entity decoder (Go stdlib `html.UnescapeString`)
is passed in as a function parameter. Every block of `ParseIPInfo` writes
a disjoint set of record fields, each at most once (each field starts as
the empty string from `NewIPInfo`), so the record is assembled from one
per-field extractor per Go block, each extractor folding over its query's
matches exactly as the corresponding `Each` loop does. -/

/-- The content of one `.line.asnname .content` (or `.orgname`) element:
its text with the `.label` children removed, and the trimmed-at-source
texts of those `.label` children in document order. -/
structure TagContent where
  text : String
  labels : List String
deriving DecidableEq

/-- The abstracted document: the raw HTML string plus the results of the
fixed goquery selector and script-variable regex lookups that
`ParseIPInfo` performs. A script variable is `none` when no script block
matched the assignment pattern, `some v` (possibly empty) when one did. -/
structure Doc where
  content : String
  title : String
  errorMessage : String
  scriptIp : Option String
  scriptLoc : Option String
  scriptLongitude : Option String
  scriptLatitude : Option String
  flagImgSrcs : List String
  asnLinks : List String
  asnContents : List TagContent
  orgContents : List TagContent
  locContentHtmls : List String
  lineEntries : List (String × String)
  ipTypeLabels : List String
  riskEntries : List (String × String)
  nativeLabels : List String
deriving DecidableEq

/-- The record built by `ParseIPInfo` (models.IPInfo). -/
structure IPInfo where
  ip : String
  ipLocation : String
  asn : String
  asnOwner : String
  asnType : String
  organization : String
  orgType : String
  longitude : String
  latitude : String
  ipType : String
  riskValue : String
  nativeIP : String
  countryFlag : String
  princess : String
deriving DecidableEq

/-- The failure cases of `ParseIPInfo`. -/
inductive ParseErr where
  | emptyHtml
  | errorPage (msg : String)
  | errorPageTitle (title : String)
  | missingAddress
deriving DecidableEq

/-- Whether a failure is one of the two recognized-error-page rejections
(content marker, or title marker). -/
def isErrorPageErr : ParseErr → Bool
  | .errorPage _ => true
  | .errorPageTitle _ => true
  | _ => false

/-- The error marker phrase recognized in page content and title. -/
def errMarker : String := "系统发生错误"

/-- The constant attribution value set by `NewIPInfo`. -/
def princessURL : String := "https://linux.do/u/amna"

/-- Go `unicode.IsSpace`: the White_Space code points. -/
def goIsSpace (c : Char) : Bool :=
  let n := c.toNat
  n == 9 || n == 10 || n == 11 || n == 12 || n == 13 || n == 32 ||
  n == 133 || n == 160 || n == 5760 || (8192 ≤ n && n ≤ 8202) ||
  n == 8232 || n == 8233 || n == 8239 || n == 8287 || n == 12288

/-- Go `strings.TrimSpace`. -/
def goTrimSpace (s : String) : String :=
  String.mk (((s.data.dropWhile goIsSpace).reverse.dropWhile goIsSpace).reverse)

/-- Go `strings.Join` with the given separator. -/
def joinSep (sep : String) : List String → String
  | [] => ""
  | x :: xs => xs.foldl (fun acc y => acc ++ sep ++ y) x

/-- Substring occurrence over character lists (Go `strings.Contains` works
on bytes; UTF-8 is self-synchronizing, so byte-level and character-level
occurrence coincide for valid strings). -/
def hasSub (needle : List Char) : List Char → Bool
  | [] => needle.isEmpty
  | c :: rest => needle.isPrefixOf (c :: rest) || hasSub needle rest

/-- Go `strings.Contains`. -/
def strContains (s sub : String) : Bool :=
  hasSub sub.data s.data

/-- Leftmost non-overlapping replacement of a non-empty pattern, as Go
`strings.Replace(s, old, new, -1)`; the fuel is the input length. -/
def replaceAllChars (old rep : List Char) : Nat → List Char → List Char
  | _, [] => []
  | 0, l => l
  | fuel + 1, c :: rest =>
      if old.isPrefixOf (c :: rest) then
        rep ++ replaceAllChars old rep fuel ((c :: rest).drop old.length)
      else c :: replaceAllChars old rep fuel rest

/-- Go `strings.Replace(s, old, new, -1)` for non-empty `old`. -/
def replaceAllStr (s old rep : String) : String :=
  String.mk (replaceAllChars old.data rep.data s.data.length s.data)

/-- Drop characters through the first `>`, if any (the end of a tag). -/
def dropThroughGt : List Char → Option (List Char)
  | [] => none
  | c :: rest => if c = '>' then some rest else dropThroughGt rest

/-- The regex replacement `<[^>]*>` → `" "`: each `<` that is followed by
a later `>` is removed together with everything through that first `>`. -/
def stripTags : Nat → List Char → List Char
  | _, [] => []
  | 0, l => l
  | fuel + 1, c :: rest =>
      if c = '<' then
        match dropThroughGt rest with
        | some rest2 => ' ' :: stripTags fuel rest2
        | none => c :: stripTags fuel rest
      else c :: stripTags fuel rest

/-- After an opening `\x7b\x7b`, find the matching `\x7d\x7d` of the Vue
pattern: the run of non-`\x7d` characters must be followed by exactly two
`\x7d`; returns the remainder after them. -/
def vueMatchEnd (l : List Char) : Option (List Char) :=
  match l.dropWhile (fun c => c ≠ Char.ofNat 125) with
  | r1 :: r2 :: tail =>
      if r1 = Char.ofNat 125 ∧ r2 = Char.ofNat 125 then some tail else none
  | _ => none

/-- The regex replacement removing Vue template expressions
(`\x7b\x7b[^\x7d]*\x7d\x7d` → empty). -/
def stripVue : Nat → List Char → List Char
  | _, [] => []
  | 0, l => l
  | fuel + 1, c :: rest =>
      if c = Char.ofNat 123 ∧ rest.headD ' ' = Char.ofNat 123 ∧ (rest.isEmpty = false) then
        match vueMatchEnd rest.tail with
        | some rest2 => stripVue fuel rest2
        | none => c :: stripVue fuel rest
      else c :: stripVue fuel rest

/-- The character class of Go's regexp `\s` (ASCII only). -/
def reSpace (c : Char) : Bool :=
  c.toNat == 9 || c.toNat == 10 || c.toNat == 12 || c.toNat == 13 || c.toNat == 32

/-- The regex replacement `\s+` → `" "`. -/
def collapseSpaces : Nat → List Char → List Char
  | _, [] => []
  | 0, l => l
  | fuel + 1, c :: rest =>
      if reSpace c then ' ' :: collapseSpaces fuel (rest.dropWhile reSpace)
      else c :: collapseSpaces fuel rest

/-- Translation of `extractTextBetweenTags`: strip tags to spaces, remove
Vue template expressions, collapse whitespace runs, trim. -/
def extractTextBetweenTags (html : String) : String :=
  let t := stripTags html.data.length html.data
  let t := stripVue t.length t
  let t := collapseSpaces t.length t
  goTrimSpace (String.mk t)

/-- Cut the content at the first em-dash and trim, as the
`strings.Index(content, "—")` branch of the owner extraction; the content
is returned unchanged when no em-dash occurs. -/
def cutAtDash (s : String) : String :=
  let pre := s.data.takeWhile (fun c => c ≠ Char.ofNat 8212)
  if pre.length = s.data.length then s else goTrimSpace (String.mk pre)

/-- Go `strings.TrimSuffix`. -/
def trimSuffixStr (s suffix : String) : String :=
  if suffix.data.isSuffixOf s.data then
    String.mk (s.data.take (s.data.length - suffix.data.length))
  else s

/-- One iteration of the tag-collecting loops: trim the matching element's
text and append it when non-empty. -/
def collectStep (acc : List String) (l : String) : List String :=
  let t := goTrimSpace l
  if t ≠ "" then acc ++ [t] else acc

/-- The tag-collecting loop shared by the category-tag extractions. -/
def collectTags (labels : List String) : List String :=
  labels.foldl collectStep []

/-- One segment-splitting pass of Go `strings.Split` with a non-empty
separator: cut at each leftmost occurrence (the accumulator holds the
current segment reversed; the fuel is the input length). -/
def splitLoop (sep : List Char) : Nat → List Char → List Char → List (List Char)
  | _, acc, [] => [acc.reverse]
  | 0, acc, l => [acc.reverse ++ l]
  | fuel + 1, acc, c :: rest =>
      if sep.isPrefixOf (c :: rest) then
        acc.reverse :: splitLoop sep fuel [] ((c :: rest).drop sep.length)
      else splitLoop sep fuel (c :: acc) rest

/-- Go `strings.Split` for the non-empty separators used here (`"-"` and
`"/"`). -/
def goSplit (s sep : String) : List String :=
  if sep = "" then [s]
  else (splitLoop sep.data s.data.length [] s.data).map String.mk

/-- Translation of `extractIPTypes` as the value it writes: join the
collected tags with `"; "` when any, otherwise leave the field's prior
(empty) value. -/
def extractIPTypes (labels : List String) : String :=
  let ipTypes := collectTags labels
  if ipTypes.length > 0 then joinSep "; " ipTypes else ""

/-- One iteration of the owner/category extraction (`extractASNInfo` and
the identically-shaped `extractOrgInfo`): the owner text is the element's
text without labels, trimmed and cut at the em-dash, then entity-decoded;
the category value is the joined collected labels when any, otherwise the
previous value. -/
def ownerTypesStep (decode : String → String) (acc : String × String)
    (item : TagContent) : String × String :=
  let content := goTrimSpace item.text
  let content := cutAtDash content
  let owner := decode content
  let types := collectTags item.labels
  (owner, if types.length > 0 then joinSep "; " types else acc.2)

/-- Translation of `extractASNInfo` as the `(ASNOwner, ASNType)` values it
writes over all `.line.asnname .content` matches. -/
def extractASNInfoVal (decode : String → String) (items : List TagContent) : String × String :=
  items.foldl (ownerTypesStep decode) ("", "")

/-- Translation of `extractOrgInfo` as the `(Organization, OrgType)` values
it writes over all `.line.orgname .content` matches. -/
def extractOrgInfoVal (decode : String → String) (items : List TagContent) : String × String :=
  items.foldl (ownerTypesStep decode) ("", "")

/-- Translation of `extractIPLocation` as the value it writes: per
`.line.loc .content` match, the inner HTML cleaned by
`extractTextBetweenTags`, the literal `错误提交` removed, trimmed,
whitespace-collapsed, and entity-decoded when non-empty. -/
def extractIPLocationDom (decode : String → String) (htmls : List String) : String :=
  htmls.foldl (fun v html =>
    let text := extractTextBetweenTags html
    let text := replaceAllStr text "错误提交" ""
    let text := goTrimSpace text
    let text := String.mk (collapseSpaces text.data.length text.data)
    if text ≠ "" then decode text else v) ""

/-- The address extraction: the `window.ip` script variable when present
and non-empty, otherwise the trimmed part of the title before the first
`-`. -/
def extractAddress (doc : Doc) : String :=
  match doc.scriptIp with
  | some ip => if ip ≠ "" then ip else goTrimSpace ((goSplit doc.title "-").headD "")
  | none => goTrimSpace ((goSplit doc.title "-").headD "")

/-- The location value: the `window.loc` script variable (entity-decoded)
when present and non-empty, otherwise the DOM fallback. -/
def extractLocationVal (decode : String → String) (doc : Doc) : String :=
  match doc.scriptLoc with
  | some loc => if loc ≠ "" then decode loc else extractIPLocationDom decode doc.locContentHtmls
  | none => extractIPLocationDom decode doc.locContentHtmls

/-- The country-flag value: per `.line.loc .content img` with a `src`, the
last `/`-separated component with a `.png` suffix removed. -/
def extractFlagVal (srcs : List String) : String :=
  srcs.foldl (fun v src =>
    let parts := goSplit src "/"
    if parts.length > 0 then trimSuffixStr (parts.getLastD "") ".png" else v) ""

/-- The ASN value: the trimmed text of each `.line.asn .content a` match,
the last match winning. -/
def extractASNVal (links : List String) : String :=
  links.foldl (fun _v s => goTrimSpace s) ""

/-- A coordinate from the `.line` entries: the trimmed `.content` of the
entry whose trimmed `.name` equals the given label. -/
def coordDom (lines : List (String × String)) (name : String) : String :=
  lines.foldl (fun v e => if goTrimSpace e.1 = name then goTrimSpace e.2 else v) ""

/-- A coordinate value: the script variable when present and non-empty,
otherwise the DOM fallback. -/
def extractCoordVal (script : Option String) (lines : List (String × String))
    (name : String) : String :=
  match script with
  | some v => if v ≠ "" then v else coordDom lines name
  | none => coordDom lines name

/-- The risk value: per `.riskcurrent` match with non-empty trimmed value
and label, `value ++ " " ++ lab`. -/
def extractRiskVal (entries : List (String × String)) : String :=
  entries.foldl (fun v e =>
    let value := goTrimSpace e.1
    let lab := goTrimSpace e.2
    if value ≠ "" ∧ lab ≠ "" then value ++ " " ++ lab else v) ""

/-- The native-IP value: the trimmed text of each match, last winning. -/
def extractNativeVal (labels : List String) : String :=
  labels.foldl (fun _v s => goTrimSpace s) ""

/-- The record assembled by the extraction blocks of `ParseIPInfo`; each
Go block writes its own field(s) at most once, so the sequential
mutations amount to this per-field assembly. The `princess` field is the
constant set by `NewIPInfo` and re-asserted before returning. -/
def buildRecord (decode : String → String) (doc : Doc) : IPInfo where
  ip := extractAddress doc
  ipLocation := extractLocationVal decode doc
  asn := extractASNVal doc.asnLinks
  asnOwner := (extractASNInfoVal decode doc.asnContents).1
  asnType := (extractASNInfoVal decode doc.asnContents).2
  organization := (extractOrgInfoVal decode doc.orgContents).1
  orgType := (extractOrgInfoVal decode doc.orgContents).2
  longitude := extractCoordVal doc.scriptLongitude doc.lineEntries "经度"
  latitude := extractCoordVal doc.scriptLatitude doc.lineEntries "纬度"
  ipType := extractIPTypes doc.ipTypeLabels
  riskValue := extractRiskVal doc.riskEntries
  nativeIP := extractNativeVal doc.nativeLabels
  countryFlag := extractFlagVal doc.flagImgSrcs
  princess := princessURL

/-- Translation of `ParseIPInfo`: reject empty input, then a content
containing the error marker (with the `.error-message` detail when
available), then a title containing an error marker; extract the address
and fail when it is empty; otherwise build the record (whose `princess`
field is the constant, making the Go function's final re-checks of the
address and of `princess` no-ops). -/
def parseIPInfo (decode : String → String) (doc : Doc) : Except ParseErr IPInfo :=
  if doc.content = "" then .error .emptyHtml
  else if strContains doc.content errMarker then
    .error (.errorPage (if doc.errorMessage ≠ "" then doc.errorMessage else errMarker))
  else if strContains doc.title errMarker || strContains doc.title "Error" then
    .error (.errorPageTitle doc.title)
  else if extractAddress doc = "" then .error .missingAddress
  else .ok (buildRecord decode doc)

/-! ### Spec-side formulas and concrete documents for the extraction claims -/

/-- The claim's multi-value formula: the trimmed texts of all matching tag
elements joined by `"; "` in document order (spec wording). -/
def joinAllTrimmed (labels : List String) : String :=
  joinSep "; " (labels.map goTrimSpace)

/-- The code's multi-value formula: the trimmed texts that are non-empty,
joined by `"; "` in document order. -/
def joinNonemptyTrimmed (labels : List String) : String :=
  joinSep "; " ((labels.map goTrimSpace).filter (fun t => t ≠ ""))

/-- A document with non-empty content, no title, and no query matches: the
address is empty after both strategies. -/
def c6doc : Doc :=
  ⟨"x", "", "", none, none, none, none, [], [], [], [], [], [], [], [], []⟩

/-- A document whose content contains the error marker phrase. -/
def c7doc : Doc :=
  ⟨"前缀系统发生错误后缀", "", "", none, none, none, none, [], [], [], [], [], [], [], [], []⟩

/-- A document with three IP-type tag elements, one of which trims to the
empty string. -/
def c8doc : Doc :=
  ⟨"x", "1.2.3.4", "", none, none, none, none, [], [], [], [], [], [],
   ["a", " ", "b"], [], []⟩

/-! ### Properties of the proof-of-work loop -/

lemma powLoop_ok_min (x1b db : List Nat) :
    ∀ fuel counter c, powLoop x1b db counter fuel = .ok c →
      counter ≤ c ∧ c ≤ counter + fuel ∧ powMatch x1b db c = true ∧
      ∀ c2, counter ≤ c2 → c2 < c → powMatch x1b db c2 = false := by
  intro fuel
  induction fuel with
  | zero =>
    intro counter c h
    cases hm : powMatch x1b db counter with
    | true =>
      simp [powLoop, hm] at h
      subst h
      exact ⟨le_refl _, by omega, hm, fun c2 h1 h2 => by omega⟩
    | false => simp [powLoop, hm] at h
  | succ fuel ih =>
    intro counter c h
    cases hm : powMatch x1b db counter with
    | true =>
      simp [powLoop, hm] at h
      subst h
      exact ⟨le_refl _, by omega, hm, fun c2 h1 h2 => by omega⟩
    | false =>
      simp only [powLoop, hm, Bool.false_eq_true, if_false] at h
      obtain ⟨h1, h2, h3, h4⟩ := ih (counter + 1) c h
      refine ⟨by omega, by omega, h3, fun c2 hc2 hlt => ?_⟩
      rcases Nat.eq_or_lt_of_le hc2 with heq | hgt
      · subst heq; exact hm
      · exact h4 c2 hgt hlt

lemma powLoop_error_iff (x1b db : List Nat) :
    ∀ fuel counter, powLoop x1b db counter fuel = .error powFailMsg ↔
      ∀ c, counter ≤ c → c ≤ counter + fuel → powMatch x1b db c = false := by
  intro fuel
  induction fuel with
  | zero =>
    intro counter
    cases hm : powMatch x1b db counter with
    | true =>
      simp only [powLoop, hm, if_true]
      constructor
      · intro h; exact absurd h (fun hc => nomatch hc)
      · intro h; exact absurd hm (by simp [h counter (le_refl _) (by omega)])
    | false =>
      simp only [powLoop, hm, Bool.false_eq_true, if_false]
      constructor
      · intro _ c h1 h2
        have : c = counter := by omega
        subst this; exact hm
      · intro _; trivial
  | succ fuel ih =>
    intro counter
    cases hm : powMatch x1b db counter with
    | true =>
      simp only [powLoop, hm, if_true]
      constructor
      · intro h; exact absurd h (fun hc => nomatch hc)
      · intro h; exact absurd hm (by simp [h counter (le_refl _) (by omega)])
    | false =>
      simp only [powLoop, hm, Bool.false_eq_true, if_false]
      rw [ih (counter + 1)]
      constructor
      · intro h c h1 h2
        rcases Nat.eq_or_lt_of_le h1 with heq | hgt
        · subst heq; exact hm
        · exact h c hgt (by omega)
      · intro h c h1 h2; exact h c (by omega) (by omega)

lemma powLoop_shape (x1b db : List Nat) :
    ∀ fuel counter, (∃ c, powLoop x1b db counter fuel = .ok c) ∨
      powLoop x1b db counter fuel = .error powFailMsg := by
  intro fuel
  induction fuel with
  | zero =>
    intro counter
    cases hm : powMatch x1b db counter with
    | true => exact Or.inl ⟨counter, by simp [powLoop, hm]⟩
    | false => exact Or.inr (by simp [powLoop, hm])
  | succ fuel ih =>
    intro counter
    cases hm : powMatch x1b db counter with
    | true => exact Or.inl ⟨counter, by simp [powLoop, hm]⟩
    | false =>
      simpa only [powLoop, hm, Bool.false_eq_true, if_false] using ih (counter + 1)

lemma powLoop_entry (x1b db : List Nat) (counter fuel : Nat)
    (h : powMatch x1b db counter = true) :
    powLoop x1b db counter fuel = .ok counter := by
  cases fuel <;> simp [powLoop, h]

lemma be32_mem_lt (w b : Nat) (h : b ∈ be32 w) : b < 256 := by
  simp only [be32, List.mem_cons, List.not_mem_nil, or_false] at h
  rcases h with h | h | h | h <;> subst h <;> exact Nat.mod_lt _ (by norm_num)

lemma sha256_mem_lt (msg : List Nat) (b : Nat) (h : b ∈ sha256 msg) : b < 256 := by
  simp only [sha256, List.mem_append] at h
  rcases h with ((((((h | h) | h) | h) | h) | h) | h) | h <;> exact be32_mem_lt _ _ h

lemma hexDigitByte_hex (n : Nat) (h : n < 16) : hexByte (hexDigitByte n) = true := by
  unfold hexDigitByte hexByte
  by_cases h10 : n < 10 <;> simp [h10] <;> omega

lemma hexEncode_mem_hex (bs : List Nat) (hbs : ∀ a ∈ bs, a < 256) (b : Nat)
    (h : b ∈ hexEncode bs) : hexByte b = true := by
  simp only [hexEncode, List.mem_flatMap] at h
  obtain ⟨a, ha, hb⟩ := h
  have h256 := hbs a ha
  simp only [List.mem_cons, List.not_mem_nil, or_false] at hb
  rcases hb with hb | hb <;> subst hb
  · exact hexDigitByte_hex _ (by omega)
  · exact hexDigitByte_hex _ (Nat.mod_lt _ (by norm_num))

lemma sha256Hex_mem_hex (msg : List Nat) (b : Nat) (h : b ∈ sha256Hex msg) :
    hexByte b = true :=
  hexEncode_mem_hex _ (fun a ha => sha256_mem_lt msg a ha) b h

lemma hexEncode_length (bs : List Nat) : (hexEncode bs).length = 2 * bs.length := by
  induction bs with
  | nil => rfl
  | cons a bs ih =>
    simp only [hexEncode, List.flatMap_cons] at ih ⊢
    simp [ih]; omega

lemma sha256_length (msg : List Nat) : (sha256 msg).length = 32 := by
  simp [sha256, be32]

lemma sha256Hex_length (msg : List Nat) : (sha256Hex msg).length = 64 := by
  simp [sha256Hex, hexEncode_length, sha256_length]

/-- If the difficulty string contains a byte outside the lowercase hex
alphabet, no counter can ever match. -/
lemma powMatch_false_of_nonhex (x1b db : List Nat) (hb : ∃ b ∈ db, hexByte b = false) :
    ∀ c, powMatch x1b db c = false := by
  intro c
  obtain ⟨b, hmem, hbad⟩ := hb
  cases hpm : powMatch x1b db c with
  | false => rfl
  | true =>
    exfalso
    unfold powMatch at hpm
    simp only [calculateHashStart, decide_eq_true_eq] at hpm
    set hh := sha256Hex (x1b ++ strBytes (Nat.repr c)) with hhh
    have hlen : hh.length = 64 := sha256Hex_length _
    by_cases hgt : db.length > hh.length
    · rw [if_pos hgt] at hpm
      have : (hh.take hh.length).length = db.length := by rw [hpm]
      simp at this
      omega
    · rw [if_neg hgt] at hpm
      rw [← hpm] at hmem
      have : b ∈ hh := List.mem_of_mem_take hmem
      rw [sha256Hex_mem_hex _ b this] at hbad
      exact nomatch hbad

/-- A difficulty containing a byte outside the lowercase hex alphabet makes
`calculatePow` fail with the iteration-limit error. -/
lemma calculatePow_error_of_nonhex (x1 d : String)
    (h : ∃ b ∈ strBytes d, hexByte b = false) :
    calculatePow x1 d = .error powFailMsg := by
  unfold calculatePow
  rw [powLoop_error_iff]
  intro c _ _
  exact powMatch_false_of_nonhex _ _ h c

lemma powMatch_nil (x1b : List Nat) (c : Nat) : powMatch x1b [] c = true := by
  simp [powMatch, calculateHashStart]

lemma calculatePow_empty (x1 : String) : calculatePow x1 "" = .ok 0 := by
  unfold calculatePow
  exact powLoop_entry _ _ 0 100000 (powMatch_nil _ 0)

/-- A character outside the lowercase hex alphabet contributes a byte
outside that alphabet to the UTF-8 encoding of the string. -/
lemma strBytes_nonhex_byte (d : String) (c : Char) (hc : c ∈ d.data)
    (h : hexChar c = false) : ∃ b ∈ strBytes d, hexByte b = false := by
  unfold hexChar at h
  unfold strBytes
  refine ⟨(utf8EncodeChar c).headD 0, ?_, ?_⟩
  · rw [List.mem_flatMap]
    refine ⟨c, hc, ?_⟩
    simp only [utf8EncodeChar]
    split <;> try (split <;> try split) <;> simp
    simp
  · simp only [utf8EncodeChar]
    split
    · simpa using h
    · split
      · simp only [List.headD_cons]
        unfold hexByte
        have : 192 + c.toNat / 64 ≥ 192 := by omega
        simp; omega
      · split
        · simp only [List.headD_cons]
          unfold hexByte
          simp; omega
        · simp only [List.headD_cons]
          unfold hexByte
          simp; omega

/-! ### The claims -/

/-- C1: for every nonce and difficulty, whenever some counter within the
iteration bound (0 through 100000) makes the lowercase-hex SHA-256 digest
of `nonce + decimal(counter)`, truncated to the difficulty's length, equal
the difficulty, `calculatePow` returns a matching counter below which no
counter matches (the smallest one); in particular a 0-length difficulty
returns counter 0. -/
theorem c1_solveProofOfWork_smallest_counter (x1 d : String)
    (h : ∃ c, c ≤ 100000 ∧ powMatch (strBytes x1) (strBytes d) c = true) :
    (∃ c, calculatePow x1 d = .ok c ∧ powMatch (strBytes x1) (strBytes d) c = true ∧
      ∀ c2, c2 < c → powMatch (strBytes x1) (strBytes d) c2 = false) ∧
    calculatePow x1 "" = .ok 0 := by
  constructor
  · obtain ⟨c0, hc0, hm0⟩ := h
    rcases powLoop_shape (strBytes x1) (strBytes d) 100000 0 with ⟨c, hok⟩ | herr
    · obtain ⟨_, _, h3, h4⟩ := powLoop_ok_min _ _ 100000 0 c hok
      exact ⟨c, hok, h3, fun c2 hlt => h4 c2 (Nat.zero_le _) hlt⟩
    · rw [powLoop_error_iff] at herr
      rw [herr c0 (Nat.zero_le _) (by omega)] at hm0
      exact nomatch hm0
  · exact calculatePow_empty x1

/-- Witness for C1 at nonce `"y"` and the empty difficulty: counter 0
matches trivially and the search returns it. -/
theorem c1_witness :
    (∃ c, c ≤ 100000 ∧ powMatch (strBytes "y") (strBytes "") c = true) ∧
    ((∃ c, calculatePow "y" "" = .ok c ∧ powMatch (strBytes "y") (strBytes "") c = true ∧
      ∀ c2, c2 < c → powMatch (strBytes "y") (strBytes "") c2 = false) ∧
    calculatePow "y" "" = .ok 0) :=
  ⟨⟨0, by decide, by decide⟩,
   c1_solveProofOfWork_smallest_counter "y" "" ⟨0, by decide, by decide⟩⟩

/-- C3: the search always terminates with a result (the total function
`calculatePow`): it fails with the iteration-limit error exactly when no
counter within the loop's iteration ceiling (counter values 0 through
100000, the loop erroring once the counter exceeds 100000) matches, any
returned counter lies within that ceiling, and in particular a difficulty
containing a character that cannot occur in a lowercase hex digest always
fails. -/
theorem c3_pow_bounded_failure (x1 d : String) :
    (calculatePow x1 d = .error powFailMsg ↔
      ∀ c, c ≤ 100000 → powMatch (strBytes x1) (strBytes d) c = false) ∧
    (∀ c, calculatePow x1 d = .ok c →
      c ≤ 100000 ∧ powMatch (strBytes x1) (strBytes d) c = true) ∧
    ((∃ ch ∈ d.data, hexChar ch = false) → calculatePow x1 d = .error powFailMsg) := by
  refine ⟨?_, ?_, ?_⟩
  · unfold calculatePow
    rw [powLoop_error_iff]
    constructor
    · intro h c h1
      exact h c (Nat.zero_le _) (by omega)
    · intro h c _ h2
      exact h c (by omega)
  · intro c hok
    obtain ⟨_, h2, h3, _⟩ := powLoop_ok_min _ _ 100000 0 c hok
    exact ⟨by omega, h3⟩
  · intro hx
    obtain ⟨ch, hmem, hnon⟩ := hx
    exact calculatePow_error_of_nonhex x1 d (strBytes_nonhex_byte d ch hmem hnon)

/-- Witness for C3: a difficulty of `"zz"` (no hex digest contains `z`)
makes the search fail with the iteration-limit error. -/
theorem c3_witness : calculatePow "y" "zz" = .error powFailMsg :=
  (c3_pow_bounded_failure "y" "zz").2.2 ⟨'z', by decide, by decide⟩

/-- Counterexample to C4: `calculatePow` performs no case normalization of
the difficulty, so at nonce `"y"` the uppercase difficulty `"E"` fails with
the iteration-limit error while its lowercase form `"e"` matches at
counter 0. -/
theorem c4_counterexample :
    calculatePow "y" "E" ≠ calculatePow "y" (specLower "E") := by
  have h1 : calculatePow "y" "E" = .error powFailMsg :=
    calculatePow_error_of_nonhex "y" "E" ⟨69, by decide, by decide⟩
  have h2 : specLower "E" = "e" := by decide
  have h3 : calculatePow "y" "e" = .ok 0 := by decide
  rw [h1, h2, h3]
  exact fun hc => nomatch hc

/-- C4 amended: the hex comparison is not case-normalized — the digest is
lowercase hex and the difficulty is compared verbatim, so a difficulty
containing any character outside the lowercase hex alphabet (in particular
an uppercase letter) always fails with the iteration-limit error, and
lowercasing the difficulty only preserves the result when it leaves the
difficulty unchanged. -/
theorem c4_amended_case_sensitive (x1 d : String)
    (h : ∃ ch ∈ d.data, hexChar ch = false) :
    calculatePow x1 d = .error powFailMsg ∧
    (specLower d = d → calculatePow x1 d = calculatePow x1 (specLower d)) := by
  obtain ⟨ch, hmem, hnon⟩ := h
  refine ⟨calculatePow_error_of_nonhex x1 d (strBytes_nonhex_byte d ch hmem hnon), ?_⟩
  intro he
  rw [he]

/-- Witness for the amended C4 at nonce `"q"` and difficulty `"Z"`. -/
theorem c4_witness :
    (∃ ch ∈ "Z".data, hexChar ch = false) ∧
    (calculatePow "q" "Z" = .error powFailMsg ∧
     (specLower "Z" = "Z" → calculatePow "q" "Z" = calculatePow "q" (specLower "Z"))) :=
  ⟨⟨'Z', by decide, by decide⟩,
   c4_amended_case_sensitive "q" "Z" ⟨'Z', by decide, by decide⟩⟩

lemma madd_lt (k a : Nat) : madd k a < 16777216 :=
  Nat.mod_lt _ (by norm_num)

lemma js1Chunk8_lt (x1b : List Nat) (hrefLen : Int) (animated : Bool) (js0 : Nat) :
    js1Chunk8 x1b hrefLen animated js0 < 16777216 := by
  unfold js1Chunk8
  exact madd_lt _ _

/-- C5: on every 32-hexadecimal-character nonce, any location href and
`animated = false`, the derived key is in `[0, 2^24)` — the eighth chunk
block runs and its final operation is masked to 24 bits (nonnegativity is
by construction of the accumulator). -/
theorem c5_derived_key_in_range (x1 href : String)
    (h : (strBytes x1).length = 32 ∧ ∀ b ∈ strBytes x1, isHexDigitByte b = true) :
    calculateJs1Key x1 href false < 16777216 := by
  obtain ⟨hlen, -⟩ := h
  simp only [calculateJs1Key]
  rw [if_pos (show 32 ≤ (strBytes x1).length by omega)]
  exact js1Chunk8_lt _ _ _ _

/-- Witness for C5 at the nonce from the spec's end-to-end scenario. -/
theorem c5_witness :
    ((strBytes "3ef12496741412ab807c60c346ded5e7").length = 32 ∧
      ∀ b ∈ strBytes "3ef12496741412ab807c60c346ded5e7", isHexDigitByte b = true) ∧
    calculateJs1Key "3ef12496741412ab807c60c346ded5e7" "https://ping0.cc" false < 16777216 :=
  ⟨by decide, c5_derived_key_in_range _ "https://ping0.cc" (by decide)⟩

/-- `GenerateKey` rejects with the invalid-length error exactly when the
nonce is not 32 bytes long; no other property of the nonce is validated. -/
lemma generateKey_invalid_iff (jsPath x1 d : String) :
    (∃ n, GenerateKey jsPath x1 d = .error (.invalidLength n)) ↔
      (strBytes x1).length ≠ 32 := by
  constructor
  · rintro ⟨n, h⟩ heq
    unfold GenerateKey at h
    rw [if_neg (by omega)] at h
    cases hcp : calculatePow x1 d with
    | ok p => rw [hcp] at h; exact nomatch h
    | error e => rw [hcp] at h; exact nomatch h
  · intro hne
    exact ⟨(strBytes x1).length, by unfold GenerateKey; rw [if_pos hne]⟩

/-- Counterexample to C2: a nonce of 32 `z` characters is not made of
hexadecimal characters, yet `GenerateKey` does not reject it — validation
only checks the length, and the call (with an empty difficulty) succeeds,
so failure with InvalidInput is not equivalent to "not exactly 32
hexadecimal characters". -/
theorem c2_counterexample :
    (¬ ((strBytes zs32).length = 32 ∧ ∀ b ∈ strBytes zs32, isHexDigitByte b = true)) ∧
    (GenerateKey "" zs32 "").isOk = true := by
  constructor
  · decide
  · decide

/-- C2 amended: `GenerateKey` fails with the invalid-input error exactly
when the nonce is not exactly 32 bytes long; hexadecimal-ness is not
checked, so any 32-byte nonce passes validation and proceeds to key
derivation (non-hex chunks simply parse as 0). -/
theorem c2_amended_length_only_validation (jsPath x1 d : String) :
    (∃ n, GenerateKey jsPath x1 d = .error (.invalidLength n)) ↔
      (strBytes x1).length ≠ 32 :=
  generateKey_invalid_iff jsPath x1 d

/-- C10: the credentials returned by `GenerateKey` do not depend on the
`jsPath` argument — it is only logged in verbose mode. -/
theorem c10_jsPath_independent (j1 j2 x1 d : String) :
    GenerateKey j1 x1 d = GenerateKey j2 x1 d := rfl

/-- C9: a manually supplied nonce bypasses document extraction: it is
passed through unchanged, an unspecified difficulty defaults to its first
3 characters, and exactly the same 32-byte nonce validation applies to it
in `GenerateKey` as to an extracted nonce. -/
theorem c9_manual_nonce_defaults (x1 : String) (h : 3 ≤ x1.data.length) :
    getInitialPageManual x1 "" = .ok (x1, String.mk (x1.data.take 3), defaultJsPath) ∧
    (∀ jsPath d, (∃ n, GenerateKey jsPath x1 d = .error (.invalidLength n)) ↔
      (strBytes x1).length ≠ 32) := by
  constructor
  · rw [getInitialPageManual, if_neg (by simp), if_pos h]
  · intro jsPath d
    exact generateKey_invalid_iff jsPath x1 d

/-- Witness for C9 at the spec's example nonce. -/
theorem c9_witness :
    getInitialPageManual "3ef12496741412ab807c60c346ded5e7" "" =
      .ok ("3ef12496741412ab807c60c346ded5e7", "3ef", defaultJsPath) ∧
    (∀ jsPath d,
      (∃ n, GenerateKey jsPath "3ef12496741412ab807c60c346ded5e7" d =
        .error (.invalidLength n)) ↔
      (strBytes "3ef12496741412ab807c60c346ded5e7").length ≠ 32) :=
  c9_manual_nonce_defaults "3ef12496741412ab807c60c346ded5e7" (by decide)

lemma collectStep_eq (acc : List String) (l : String) :
    collectStep acc l = if goTrimSpace l ≠ "" then acc ++ [goTrimSpace l] else acc := rfl

lemma collectTags_go (ls : List String) :
    ∀ acc, ls.foldl collectStep acc =
      acc ++ (ls.map goTrimSpace).filter (fun t => t ≠ "") := by
  induction ls with
  | nil => intro acc; simp
  | cons x xs ih =>
    intro acc
    simp only [List.foldl_cons, List.map_cons, List.filter_cons, collectStep_eq]
    by_cases hx : goTrimSpace x = ""
    · rw [if_neg (by simp [hx]), if_neg (by simp [hx]), ih acc]
    · rw [if_pos hx, if_pos (by simp [hx]), ih (acc ++ [goTrimSpace x])]
      simp

lemma collectTags_eq (labels : List String) :
    collectTags labels = (labels.map goTrimSpace).filter (fun t => t ≠ "") := by
  unfold collectTags
  simpa using collectTags_go labels []

lemma joinCollect_eq (labels : List String) :
    (if 0 < (collectTags labels).length then joinSep "; " (collectTags labels) else "") =
      joinNonemptyTrimmed labels := by
  rw [collectTags_eq]
  unfold joinNonemptyTrimmed
  cases hf : (labels.map goTrimSpace).filter (fun t => t ≠ "") with
  | nil => simp [joinSep]
  | cons x xs => simp

lemma extractIPTypes_eq (labels : List String) :
    extractIPTypes labels = joinNonemptyTrimmed labels := by
  unfold extractIPTypes
  exact joinCollect_eq labels

lemma singleOwnerTypes (decode : String → String) (item : TagContent) :
    (extractASNInfoVal decode [item]).2 = joinNonemptyTrimmed item.labels := by
  unfold extractASNInfoVal ownerTypesStep
  simp only [List.foldl_cons, List.foldl_nil]
  exact joinCollect_eq item.labels

lemma parseIPInfo_ok_record (decode : String → String) (doc : Doc) (r : IPInfo)
    (h : parseIPInfo decode doc = .ok r) : r = buildRecord decode doc := by
  unfold parseIPInfo at h
  split_ifs at h
  exact (Except.ok.inj h).symm

/-- C6: every record returned successfully by `parseIPInfo` has a
non-empty address; and when the embedded-variable strategy and the title
fallback both leave the address empty (and no earlier rejection applies),
`parseIPInfo` fails with the missing-address error and returns no
record. -/
theorem c6_nonempty_address (decode : String → String) (doc : Doc) :
    (∀ r, parseIPInfo decode doc = .ok r → r.ip ≠ "") ∧
    (doc.content ≠ "" → strContains doc.content errMarker = false →
      strContains doc.title errMarker = false → strContains doc.title "Error" = false →
      extractAddress doc = "" → parseIPInfo decode doc = .error .missingAddress) := by
  constructor
  · intro r h
    have hr := parseIPInfo_ok_record decode doc r h
    unfold parseIPInfo at h
    split_ifs at h with h1 h2 h3 h4
    subst hr
    simpa [buildRecord] using h4
  · intro h1 h2 h3 h4 h5
    unfold parseIPInfo
    rw [if_neg h1, if_neg (by simp [h2]), if_neg (by simp [h3, h4]), if_pos h5]

/-- Witness for C6 at a concrete document. -/
theorem c6_witness : parseIPInfo (fun s => s) c6doc = .error .missingAddress :=
  (c6_nonempty_address (fun s => s) c6doc).2 (by decide) (by decide) (by decide)
    (by decide) (by decide)

/-- C7: a document whose textual content contains the error marker phrase,
or (being non-empty) whose title contains an error marker, is rejected
with an error-page failure and yields no record, before any field
extraction. -/
theorem c7_error_page_rejection (decode : String → String) (doc : Doc)
    (h : strContains doc.content errMarker = true ∨
      (doc.content ≠ "" ∧ (strContains doc.title errMarker = true ∨
        strContains doc.title "Error" = true))) :
    ∃ e, parseIPInfo decode doc = .error e ∧ isErrorPageErr e = true := by
  unfold parseIPInfo
  rcases h with h1 | ⟨hne, ht⟩
  · have hcne : doc.content ≠ "" := by
      intro hc
      rw [hc] at h1
      exact absurd h1 (by decide)
    rw [if_neg hcne, if_pos h1]
    exact ⟨_, rfl, rfl⟩
  · rw [if_neg hne]
    by_cases h2 : strContains doc.content errMarker = true
    · rw [if_pos h2]
      exact ⟨_, rfl, rfl⟩
    · rw [if_neg h2]
      have hcond : (strContains doc.title errMarker || strContains doc.title "Error") = true := by
        rcases ht with ht | ht <;> simp [ht]
      rw [if_pos hcond]
      exact ⟨_, rfl, rfl⟩

/-- Witness for C7 at a concrete error-page document. -/
theorem c7_witness :
    ∃ e, parseIPInfo (fun s => s) c7doc = .error e ∧ isErrorPageErr e = true :=
  c7_error_page_rejection (fun s => s) c7doc (Or.inl (by decide))

/-- Counterexample to C8: with tag texts `"a"`, `" "`, `"b"` the record's
IP-type field is `"a; b"` — the whitespace-only tag is dropped — not the
claim's join of all trimmed texts `"a; ; b"`. -/
theorem c8_counterexample :
    Except.map (fun r => r.ipType) (parseIPInfo (fun s => s) c8doc) ≠
      .ok (joinAllTrimmed c8doc.ipTypeLabels) := by
  decide

/-- C8 amended: each multi-valued category field equals the trimmed texts
of the matching tag elements that are non-empty after trimming, joined by
`"; "` in document order (for the ASN/organization category fields, per
matching container element); zero matching tags leave the field as the
empty string, not missing. -/
theorem c8_amended_join_nonempty (decode : String → String) (doc : Doc) (r : IPInfo)
    (h : parseIPInfo decode doc = .ok r) :
    r.ipType = joinNonemptyTrimmed doc.ipTypeLabels ∧
    (∀ item, doc.asnContents = [item] → r.asnType = joinNonemptyTrimmed item.labels) ∧
    (∀ item, doc.orgContents = [item] → r.orgType = joinNonemptyTrimmed item.labels) ∧
    (doc.ipTypeLabels = [] → r.ipType = "") := by
  have hr := parseIPInfo_ok_record decode doc r h
  subst hr
  refine ⟨?_, ?_, ?_, ?_⟩
  · simpa [buildRecord] using extractIPTypes_eq doc.ipTypeLabels
  · intro item hi
    simp only [buildRecord, hi]
    exact singleOwnerTypes decode item
  · intro item hi
    simp only [buildRecord, hi]
    exact singleOwnerTypes decode item
  · intro hnil
    simp [buildRecord, hnil, extractIPTypes, collectTags]

/-- Witness for the amended C8 at the three-tag document. -/
theorem c8_witness :
    parseIPInfo (fun s => s) c8doc = .ok (buildRecord (fun s => s) c8doc) ∧
    ((buildRecord (fun s => s) c8doc).ipType = joinNonemptyTrimmed c8doc.ipTypeLabels ∧
     (∀ item, c8doc.asnContents = [item] →
       (buildRecord (fun s => s) c8doc).asnType = joinNonemptyTrimmed item.labels) ∧
     (∀ item, c8doc.orgContents = [item] →
       (buildRecord (fun s => s) c8doc).orgType = joinNonemptyTrimmed item.labels) ∧
     (c8doc.ipTypeLabels = [] → (buildRecord (fun s => s) c8doc).ipType = "")) :=
  ⟨by decide, c8_amended_join_nonempty (fun s => s) c8doc _ (by decide)⟩
